import Mathlib

/-!
Shallow embedding of the calculator-agent handler
(src/backend/src/agents/boilerplate/agent.py) and proofs about its
request-normalization, memory-configuration, prompt-augmentation,
response-extraction and error-mapping pipeline.

The external SDK calls (the memory-config constructor, agent construction
and agent invocation) are modelled as an oracle `Behavior` whose components
return `Except String _`: an `Except.error msg` models a Python exception
whose `str` is `msg`.  The handler records a trace of memory-config
constructor invocations and agent invocations so that "the constructor is
never invoked" style properties are observable.  The inbound payload and
context are threaded through to the output unchanged, mirroring the fact
that every statement of the source reads them and none writes them.
-/

namespace CalcAgent

/-- Scalar value of the `userMetrics` mapping (the source iterates the dict
and renders each value with an f-string, i.e. Python `str`). -/
inductive PyVal where
  | int (n : Int)
  | str (s : String)
deriving DecidableEq

/-- Python `str` of a metric value, as used by `f"\x7bk\x7d: \x7bv\x7d"`. -/
def PyVal.render : PyVal → String
  | .int n => toString n
  | .str s => s

/-- Inbound payload dict: the handler reads only the keys `prompt` and
`userMetrics`, each possibly absent. -/
structure Payload where
  prompt : Option String := none
  userMetrics : Option (List (String × PyVal)) := none
deriving DecidableEq

/-- Host-supplied context object; every attribute is probed defensively in
the source (`getattr` / `hasattr`), so each is optional here. -/
structure Context where
  session_id : Option String := none
  headers : Option (List (String × String)) := none
  timestamp : Option String := none
deriving DecidableEq

/-- One retrieval target of the memory configuration
(`RetrievalConfig(top_k=3, relevance_score=0.5)` in the source; the float
literal 0.5 is represented exactly as the rational 1/2). -/
structure RetrievalConfig where
  top_k : Nat
  relevance_score : Rat
deriving DecidableEq

/-- Arguments of the `AgentCoreMemoryConfig(...)` constructor call. -/
structure MemoryConfig where
  memory_id : String
  session_id : String
  actor_id : String
  retrieval_config : List (String × RetrievalConfig)
deriving DecidableEq

/-- One element of `response.message.content`: either an object with a
`text` attribute, or one without (whose Python type name is recorded for
the AttributeError message). -/
inductive ContentBlock where
  | text (s : String)
  | noText (typeName : String)
deriving DecidableEq

/-- The `message` attribute of the agent response. -/
structure Message where
  content : List ContentBlock
deriving DecidableEq

/-- The object returned by `agent(enhanced_prompt)`. -/
structure AgentResponse where
  message : Message
deriving DecidableEq

/-- The result dict returned to the host.  A field with value `none`
models a key that is absent from the dict; `timestamp` is always a key of
the dict and its `Option` models a possibly-`None` value. -/
structure Result where
  status : String
  response : Option String := none
  error : Option String := none
  session_id : Option String := none
  actor_id : Option String := none
  timestamp : Option String := none
deriving DecidableEq

/-- Oracle for the three external SDK calls the handler makes; each may
raise (`Except.error` carries the exception message). -/
structure Behavior where
  memCtor : MemoryConfig → Except String MemoryConfig
  createAgent : Option MemoryConfig → Except String Unit
  invoke : String → Except String AgentResponse

/-- The custom actor-id header inspected by the source. -/
def actorHeader : String := "X-Amzn-Bedrock-AgentCore-Runtime-Custom-Actor-Id"

/-- Source line `prompt = payload.get("prompt", "") if payload else ""`. -/
def effPrompt : Option Payload → String
  | none => ""
  | some p => p.prompt.getD ""

/-- Source line
`user_metrics = payload.get("userMetrics", \x7b\x7d) if payload else \x7b\x7d`. -/
def effMetrics : Option Payload → List (String × PyVal)
  | none => []
  | some p => p.userMetrics.getD []

/-- Source line `session_id = getattr(context, 'session_id', 'default')`
(`getattr` on `None` also yields the default). -/
def resolveSessionId : Option Context → String
  | none => "default"
  | some c => c.session_id.getD "default"

/-- Source line `actor_id = context.headers.get(HDR, 'user') if
hasattr(context, 'headers') else 'user'`. -/
def resolveActorId : Option Context → String
  | none => "user"
  | some c =>
    match c.headers with
    | none => "user"
    | some hs => (hs.lookup actorHeader).getD "user"

/-- Timestamp resolution: `context.timestamp if hasattr(context,
'timestamp') else None` on success, `getattr(context, 'timestamp', None)
if context else None` on error; both compute this function. -/
def contextTimestamp : Option Context → Option String
  | none => none
  | some c => c.timestamp

/-- Source line
`metrics_str = ", ".join([f"\x7bk\x7d: \x7bv\x7d" for k, v in user_metrics.items()])`. -/
def metricsStr (m : List (String × PyVal)) : String :=
  String.intercalate ", " (m.map fun kv => kv.1 ++ ": " ++ kv.2.render)

/-- Source lines `enhanced_prompt = prompt` /
`if user_metrics: enhanced_prompt = f"\x7bprompt\x7d\n\nUser metrics: \x7bmetrics_str\x7d"`. -/
def enhancedPrompt (prompt : String) (m : List (String × PyVal)) : String :=
  if m.isEmpty then prompt
  else prompt ++ "\n\nUser metrics: " ++ metricsStr m

/-- The argument record of the `AgentCoreMemoryConfig(...)` call in the
source: two retrieval targets, each `top_k=3, relevance_score=0.5`. -/
def mkMemoryConfig (mid sid aid : String) : MemoryConfig :=
  { memory_id := mid
    session_id := sid
    actor_id := aid
    retrieval_config :=
      [("/users/" ++ aid ++ "/health_metrics",
        { top_k := 3, relevance_score := 1/2 }),
       ("/users/" ++ aid ++ "/preferences",
        { top_k := 3, relevance_score := 1/2 })] }

/-- Source line `response.message.content[0].text`: raises IndexError on
an empty content list and AttributeError when the first block has no
`text` attribute. -/
def extractText (r : AgentResponse) : Except String String :=
  match r.message.content with
  | [] => .error "list index out of range"
  | b :: _ =>
    match b with
    | .text s => .ok s
    | .noText t => .error (t ++ " object has no attribute text")

/-- Observable external calls made during one handler run. -/
structure Trace where
  memCtorCalls : List MemoryConfig := []
  invokeCalls : List String := []
deriving DecidableEq

/-- The error branch of the source: `\x7b"status": "error", "error": str(e),
"timestamp": getattr(context, 'timestamp', None) if context else None\x7d`. -/
def errorResult (msg : String) (c : Option Context) : Result :=
  { status := "error", error := some msg, timestamp := contextTimestamp c }

/-- Source lines `memory_config = None` / `if MEMORY_ID: memory_config =
AgentCoreMemoryConfig(...)`; `if MEMORY_ID` is Python truthiness, so the
constructor is invoked exactly when the identifier is set and non-empty.
The second component records the constructor invocations. -/
def memoryStep (B : Behavior) (mid : Option String) (sid aid : String) :
    Except String (Option MemoryConfig) × List MemoryConfig :=
  match mid with
  | none => (.ok none, [])
  | some s =>
    if s = "" then (.ok none, [])
    else
      match B.memCtor (mkMemoryConfig s sid aid) with
      | .ok cfg => (.ok (some cfg), [mkMemoryConfig s sid aid])
      | .error e => (.error e, [mkMemoryConfig s sid aid])

/-- The body of the `try` block: extraction, identity resolution, memory
configuration, agent construction, prompt augmentation, invocation and
response extraction, in source order; the first raised exception
propagates out as `Except.error`. -/
def handlerTry (B : Behavior) (mid : Option String) (p : Option Payload)
    (c : Option Context) : Except String String × Trace :=
  match memoryStep B mid (resolveSessionId c) (resolveActorId c) with
  | (.error e, calls) => (.error e, { memCtorCalls := calls })
  | (.ok mc, calls) =>
    match B.createAgent mc with
    | .error e => (.error e, { memCtorCalls := calls })
    | .ok _ =>
      match B.invoke (enhancedPrompt (effPrompt p) (effMetrics p)) with
      | .error e =>
        (.error e,
         { memCtorCalls := calls,
           invokeCalls := [enhancedPrompt (effPrompt p) (effMetrics p)] })
      | .ok resp =>
        match extractText resp with
        | .error e =>
          (.error e,
           { memCtorCalls := calls,
             invokeCalls := [enhancedPrompt (effPrompt p) (effMetrics p)] })
        | .ok t =>
          (.ok t,
           { memCtorCalls := calls,
             invokeCalls := [enhancedPrompt (effPrompt p) (effMetrics p)] })

/-- Full output of one handler run: the result dict, the trace of external
calls, and the inbound payload and context threaded through (the source
only ever reads them). -/
structure HandlerOut where
  result : Result
  trace : Trace
  payloadOut : Option Payload
  contextOut : Option Context

/-- The `handler` entrypoint: run the try block; on success build the
success result dict of the source, on an exception build the error result
dict of the `except` clause. -/
def handler (B : Behavior) (mid : Option String) (p : Option Payload)
    (c : Option Context) : HandlerOut :=
  match handlerTry B mid p c with
  | (.ok t, tr) =>
    { result :=
        { status := "success", response := some t,
          session_id := some (resolveSessionId c),
          actor_id := some (resolveActorId c),
          timestamp := contextTimestamp c },
      trace := tr, payloadOut := p, contextOut := c }
  | (.error e, tr) =>
    { result := errorResult e c, trace := tr, payloadOut := p, contextOut := c }

/-- Behavior in which every external call succeeds and the agent returns
the given response. -/
def okBehavior (resp : AgentResponse) : Behavior :=
  { memCtor := fun a => .ok a
    createAgent := fun _ => .ok ()
    invoke := fun _ => .ok resp }

/-- Behavior in which the agent invocation raises with the given message. -/
def failingInvokeBehavior (msg : String) : Behavior :=
  { memCtor := fun a => .ok a
    createAgent := fun _ => .ok ()
    invoke := fun _ => .error msg }

/-- An agent response whose first content block carries the given text. -/
def textResp (s : String) : AgentResponse := ⟨⟨[ContentBlock.text s]⟩⟩

/-- An agent response whose content list is empty (the structured shape
`message.content[0].text` is absent). -/
def emptyContentResp : AgentResponse := ⟨⟨[]⟩⟩

/-! Helper lemmas shared by the claim theorems. -/

theorem handler_cases (B : Behavior) (mid : Option String) (p : Option Payload)
    (c : Option Context) :
    (∃ t tr, handlerTry B mid p c = (Except.ok t, tr) ∧
      handler B mid p c =
        { result :=
            { status := "success", response := some t,
              session_id := some (resolveSessionId c),
              actor_id := some (resolveActorId c),
              timestamp := contextTimestamp c },
          trace := tr, payloadOut := p, contextOut := c }) ∨
    (∃ e tr, handlerTry B mid p c = (Except.error e, tr) ∧
      handler B mid p c =
        { result := errorResult e c, trace := tr,
          payloadOut := p, contextOut := c }) := by
  rcases h : handlerTry B mid p c with ⟨e | t, tr⟩
  · exact Or.inr ⟨e, tr, rfl, by simp [handler, h]⟩
  · exact Or.inl ⟨t, tr, rfl, by simp [handler, h]⟩

theorem memoryStep_calls (B : Behavior) (mid : Option String) (sid aid : String) :
    (memoryStep B mid sid aid).2 =
      (match mid with
       | none => []
       | some s => if s = "" then [] else [mkMemoryConfig s sid aid]) := by
  unfold memoryStep
  cases mid with
  | none => rfl
  | some s =>
    by_cases hs : s = ""
    · simp [hs]
    · simp only [hs, if_false]
      cases B.memCtor (mkMemoryConfig s sid aid) <;> simp

theorem memoryStep_no_error (B : Behavior) (mid : Option String) (sid aid : String)
    (hm : ∀ a, B.memCtor a = Except.ok a) (e : String) (calls : List MemoryConfig)
    (h : memoryStep B mid sid aid = (Except.error e, calls)) : False := by
  unfold memoryStep at h
  cases mid with
  | none => simp at h
  | some s =>
    by_cases hs : s = ""
    · simp [hs] at h
    · simp [hs, hm] at h

theorem handlerTry_memCalls (B : Behavior) (mid : Option String)
    (p : Option Payload) (c : Option Context) :
    (handlerTry B mid p c).2.memCtorCalls =
      (memoryStep B mid (resolveSessionId c) (resolveActorId c)).2 := by
  unfold handlerTry
  split
  · rename_i e calls heq
    rw [heq]
  · rename_i mc calls heq
    rw [heq]
    split
    · rfl
    · split
      · rfl
      · split <;> rfl

theorem handler_trace (B : Behavior) (mid : Option String) (p : Option Payload)
    (c : Option Context) :
    (handler B mid p c).trace = (handlerTry B mid p c).2 := by
  unfold handler
  rcases h : handlerTry B mid p c with ⟨e | t, tr⟩ <;> simp [h]

theorem handlerTry_ok_pipeline (B : Behavior) (mid : Option String)
    (p : Option Payload) (c : Option Context) (resp : AgentResponse)
    (hm : ∀ a, B.memCtor a = Except.ok a)
    (ha : ∀ m, B.createAgent m = Except.ok ())
    (hi : ∀ s, B.invoke s = Except.ok resp) :
    (handlerTry B mid p c).1 = extractText resp ∧
    (handlerTry B mid p c).2.invokeCalls =
      [enhancedPrompt (effPrompt p) (effMetrics p)] := by
  unfold handlerTry
  split
  · rename_i e calls heq
    exact absurd heq (fun hh => memoryStep_no_error B mid _ _ hm e calls hh)
  · rename_i mc calls heq
    simp only [ha, hi]
    cases hx : extractText resp <;> simp [hx]

theorem handlerTry_invoke_error (B : Behavior) (mid : Option String)
    (p : Option Payload) (c : Option Context) (msg : String)
    (hm : ∀ a, B.memCtor a = Except.ok a)
    (ha : ∀ m, B.createAgent m = Except.ok ())
    (hi : ∀ s, B.invoke s = Except.error msg) :
    (handlerTry B mid p c).1 = Except.error msg := by
  unfold handlerTry
  split
  · rename_i e calls heq
    exact absurd heq (fun hh => memoryStep_no_error B mid _ _ hm e calls hh)
  · rename_i mc calls heq
    simp [ha, hi]

theorem handler_of_tryError (B : Behavior) (mid : Option String)
    (p : Option Payload) (c : Option Context) (e : String)
    (h : (handlerTry B mid p c).1 = Except.error e) :
    (handler B mid p c).result = errorResult e c := by
  unfold handler
  rcases hh : handlerTry B mid p c with ⟨e2 | t, tr⟩
  · rw [hh] at h
    simp at h
    subst h
    simp [hh]
  · rw [hh] at h
    simp at h

theorem handler_of_tryOk (B : Behavior) (mid : Option String)
    (p : Option Payload) (c : Option Context) (t : String)
    (h : (handlerTry B mid p c).1 = Except.ok t) :
    (handler B mid p c).result =
      { status := "success", response := some t,
        session_id := some (resolveSessionId c),
        actor_id := some (resolveActorId c),
        timestamp := contextTimestamp c } := by
  unfold handler
  rcases hh : handlerTry B mid p c with ⟨e | t2, tr⟩
  · rw [hh] at h
    simp at h
  · rw [hh] at h
    simp at h
    subst h
    simp [hh]

/-! Claim theorems. -/

/-- Claim C1, counterexample: with a failing agent invocation and a context
that supplies a session id, the returned error result carries no
`session_id` and no `actor_id` key, refuting the claim that both fields
are present in the error case as well as the success case. -/
theorem C1_error_result_lacks_identity :
    (handler (failingInvokeBehavior "Agent processing failed") none none
        (some { session_id := some "test-session" })).result.status = "error" ∧
    (handler (failingInvokeBehavior "Agent processing failed") none none
        (some { session_id := some "test-session" })).result.session_id = none ∧
    (handler (failingInvokeBehavior "Agent processing failed") none none
        (some { session_id := some "test-session" })).result.actor_id = none :=
  ⟨rfl, rfl, rfl⟩

/-- Claim C1, amended: every success result carries `session_id` and
`actor_id` with the resolved (defaulted) identity values, but the
error-case result dict contains neither key. -/
theorem C1_result_identity_fields (B : Behavior) (mid : Option String)
    (p : Option Payload) (c : Option Context) :
    ((handler B mid p c).result.status = "success" ∧
     (handler B mid p c).result.session_id = some (resolveSessionId c) ∧
     (handler B mid p c).result.actor_id = some (resolveActorId c)) ∨
    ((handler B mid p c).result.status = "error" ∧
     (handler B mid p c).result.session_id = none ∧
     (handler B mid p c).result.actor_id = none) := by
  rcases handler_cases B mid p c with ⟨t, tr, h, hr⟩ | ⟨e, tr, h, hr⟩
  · exact Or.inl (by rw [hr]; exact ⟨rfl, rfl, rfl⟩)
  · exact Or.inr (by rw [hr]; exact ⟨rfl, rfl, rfl⟩)

/-- Claim C2, counterexample: when the structured shape
`message.content[0].text` is absent (empty content list), the handler
returns a result with status `"error"`, not `"success"` with a
string-conversion fallback as the claim states. -/
theorem C2_no_success_fallback :
    (handler (okBehavior emptyContentResp) none none none).result.status = "error" ∧
    ¬ (handler (okBehavior emptyContentResp) none none none).result.status = "success" :=
  ⟨rfl, by decide⟩

/-- Claim C2, amended: on a successful agent invocation the handler
extracts the first text segment of the returned message content as the
result `response`; when the expected structured shape is absent, the
attribute or index access raises, the top-level handler catches it, and
the result has status `"error"` with the exception message and no
`response` key (there is no string-conversion fallback). -/
theorem C2_response_extraction (B : Behavior) (mid : Option String)
    (p : Option Payload) (c : Option Context) (resp : AgentResponse)
    (hm : ∀ a, B.memCtor a = Except.ok a)
    (ha : ∀ m, B.createAgent m = Except.ok ())
    (hi : ∀ s, B.invoke s = Except.ok resp) :
    (∀ t, extractText resp = Except.ok t →
      (handler B mid p c).result.status = "success" ∧
      (handler B mid p c).result.response = some t) ∧
    (∀ e, extractText resp = Except.error e →
      (handler B mid p c).result.status = "error" ∧
      (handler B mid p c).result.error = some e ∧
      (handler B mid p c).result.response = none) := by
  have hp := (handlerTry_ok_pipeline B mid p c resp hm ha hi).1
  constructor
  · intro t ht
    have hh := handler_of_tryOk B mid p c t (by rw [hp, ht])
    rw [hh]
    exact ⟨rfl, rfl⟩
  · intro e he
    have hh := handler_of_tryError B mid p c e (by rw [hp, he])
    rw [hh]
    exact ⟨rfl, rfl, rfl⟩

/-- Claim C2, witness: a one-text-block response yields a success result
with that text, and an empty content list yields an error result with the
IndexError message and no response. -/
theorem C2_response_extraction_witness :
    ((handler (okBehavior (textResp "Your BMI is 22.9")) none none none).result.status =
        "success" ∧
     (handler (okBehavior (textResp "Your BMI is 22.9")) none none none).result.response =
        some "Your BMI is 22.9") ∧
    ((handler (okBehavior emptyContentResp) none none none).result.status = "error" ∧
     (handler (okBehavior emptyContentResp) none none none).result.error =
        some "list index out of range" ∧
     (handler (okBehavior emptyContentResp) none none none).result.response = none) :=
  ⟨(C2_response_extraction (okBehavior (textResp "Your BMI is 22.9")) none none none
      (textResp "Your BMI is 22.9") (fun _ => rfl) (fun _ => rfl) (fun _ => rfl)).1
      "Your BMI is 22.9" rfl,
   (C2_response_extraction (okBehavior emptyContentResp) none none none emptyContentResp
      (fun _ => rfl) (fun _ => rfl) (fun _ => rfl)).2 "list index out of range" rfl⟩

/-- Claim C3: any exception raised inside the try block (memory
configuration, agent construction, invocation or response extraction) is
caught exactly once at the top level and mapped to the error result whose
`error` field is the exception message; the handler always returns a
result whose status is `"success"` or `"error"`, so no exception escapes.
In particular a failing agent invocation (with the earlier steps
succeeding) yields exactly its message in the `error` field. -/
theorem C3_error_mapping (B : Behavior) (mid : Option String)
    (p : Option Payload) (c : Option Context) :
    (∀ e, (handlerTry B mid p c).1 = Except.error e →
      (handler B mid p c).result = errorResult e c) ∧
    ((handler B mid p c).result.status = "success" ∨
     (handler B mid p c).result.status = "error") ∧
    (∀ msg, (∀ a, B.memCtor a = Except.ok a) →
      (∀ m, B.createAgent m = Except.ok ()) →
      (∀ s, B.invoke s = Except.error msg) →
      (handler B mid p c).result.status = "error" ∧
      (handler B mid p c).result.error = some msg) := by
  refine ⟨fun e h => handler_of_tryError B mid p c e h, ?_, ?_⟩
  · rcases handler_cases B mid p c with ⟨t, tr, h, hr⟩ | ⟨e, tr, h, hr⟩
    · exact Or.inl (by rw [hr])
    · exact Or.inr (by rw [hr]; rfl)
  · intro msg hm ha hi
    have ht := handlerTry_invoke_error B mid p c msg hm ha hi
    have hh := handler_of_tryError B mid p c msg ht
    rw [hh]
    exact ⟨rfl, rfl⟩

/-- Claim C3, witness: an invocation raising "Agent processing failed"
yields an error result carrying exactly that message. -/
theorem C3_error_mapping_witness :
    (handler (failingInvokeBehavior "Agent processing failed") none none
        none).result.status = "error" ∧
    (handler (failingInvokeBehavior "Agent processing failed") none none
        none).result.error = some "Agent processing failed" :=
  (C3_error_mapping (failingInvokeBehavior "Agent processing failed") none none none).2.2
    "Agent processing failed" (fun _ => rfl) (fun _ => rfl) (fun _ => rfl)

/-- Claim C4: identity resolution is total and defaulting: `session_id`
is the context attribute when present and `"default"` otherwise
(including a missing context), and `actor_id` is the custom actor-id
header value when the `headers` attribute exists and contains the key and
`"user"` otherwise. -/
theorem C4_identity_resolution (c : Context) :
    (∀ s, c.session_id = some s → resolveSessionId (some c) = s) ∧
    (c.session_id = none → resolveSessionId (some c) = "default") ∧
    (∀ hs v, c.headers = some hs → hs.lookup actorHeader = some v →
      resolveActorId (some c) = v) ∧
    (∀ hs, c.headers = some hs → hs.lookup actorHeader = none →
      resolveActorId (some c) = "user") ∧
    (c.headers = none → resolveActorId (some c) = "user") ∧
    resolveSessionId none = "default" ∧
    resolveActorId none = "user" := by
  refine ⟨?_, ?_, ?_, ?_, ?_, rfl, rfl⟩
  · intro s hsid; simp [resolveSessionId, hsid]
  · intro hsid; simp [resolveSessionId, hsid]
  · intro hs v hh hv; simp [resolveActorId, hh, hv]
  · intro hs hh hv; simp [resolveActorId, hh, hv]
  · intro hh; simp [resolveActorId, hh]

/-- Claim C4, witness: a populated context resolves to its own values, and
an empty headers mapping falls back to "user". -/
theorem C4_identity_resolution_witness :
    resolveSessionId (some { session_id := some "test-session",
                             headers := some [(actorHeader, "test-user")] }) =
      "test-session" ∧
    resolveActorId (some { session_id := some "test-session",
                           headers := some [(actorHeader, "test-user")] }) =
      "test-user" ∧
    resolveActorId (some { session_id := some "default", headers := some [] }) = "user" :=
  ⟨(C4_identity_resolution _).1 "test-session" rfl,
   (C4_identity_resolution _).2.2.1 [(actorHeader, "test-user")] "test-user" rfl rfl,
   (C4_identity_resolution _).2.2.2.1 [] rfl rfl⟩

/-- Claim C5: the effective prompt is the payload `prompt` value or the
empty string when absent, the effective metrics are the payload
`userMetrics` value or the empty mapping when absent, and an absent/None
payload behaves identically to an empty mapping; extraction is total. -/
theorem C5_payload_defaults (p : Payload) :
    (p.prompt = none → effPrompt (some p) = "") ∧
    (∀ s, p.prompt = some s → effPrompt (some p) = s) ∧
    (p.userMetrics = none → effMetrics (some p) = []) ∧
    (∀ m, p.userMetrics = some m → effMetrics (some p) = m) ∧
    effPrompt none = effPrompt (some {}) ∧
    effMetrics none = effMetrics (some {}) ∧
    effPrompt none = "" ∧
    effMetrics none = [] := by
  refine ⟨?_, ?_, ?_, ?_, rfl, rfl, rfl, rfl⟩
  · intro h; simp [effPrompt, h]
  · intro s h; simp [effPrompt, h]
  · intro h; simp [effMetrics, h]
  · intro m h; simp [effMetrics, h]

/-- Claim C5, witness: a payload missing `prompt` yields the empty string,
and a payload with a prompt and no metrics yields that prompt and the
empty mapping. -/
theorem C5_payload_defaults_witness :
    effPrompt (some { userMetrics := some [("height", PyVal.int 175)] }) = "" ∧
    effPrompt (some { prompt := some "Calculate my BMI" }) = "Calculate my BMI" ∧
    effMetrics (some { prompt := some "Calculate my BMI" }) = [] :=
  ⟨(C5_payload_defaults _).1 rfl,
   (C5_payload_defaults _).2.1 "Calculate my BMI" rfl,
   (C5_payload_defaults _).2.2.1 rfl⟩

/-- Claim C6: for a non-empty metrics mapping, the prompt passed to the
agent is the original prompt followed by the literal label line and the
comma-joined "key: value" rendering of the metrics in mapping order (for
height 175 / weight 70 the rendering is "height: 175, weight: 70"); for an
empty mapping the prompt passes through unmodified; and under a
non-failing behavior the handler invokes the agent exactly once with that
augmented prompt. -/
theorem C6_prompt_augmentation (prompt : String) (m : List (String × PyVal))
    (hne : m ≠ []) :
    enhancedPrompt prompt m =
      prompt ++ "\n\nUser metrics: " ++
        String.intercalate ", " (m.map fun kv => kv.1 ++ ": " ++ kv.2.render) ∧
    enhancedPrompt prompt [] = prompt ∧
    metricsStr [("height", PyVal.int 175), ("weight", PyVal.int 70)] =
      "height: 175, weight: 70" ∧
    (∀ B mid c (resp : AgentResponse),
      (∀ a, B.memCtor a = Except.ok a) →
      (∀ mcfg, B.createAgent mcfg = Except.ok ()) →
      (∀ s, B.invoke s = Except.ok resp) →
      (handler B mid (some { prompt := some prompt, userMetrics := some m })
          c).trace.invokeCalls = [enhancedPrompt prompt m]) := by
  refine ⟨?_, rfl, ?_, ?_⟩
  · cases m with
    | nil => exact absurd rfl hne
    | cons a t => simp [enhancedPrompt, metricsStr]
  · rfl
  · intro B mid c resp hmc hca hinv
    rw [handler_trace]
    rw [(handlerTry_ok_pipeline B mid
      (some { prompt := some prompt, userMetrics := some m }) c resp hmc hca hinv).2]
    rfl

/-- Claim C6, witness: the concrete BMI example produces the augmented
prompt and it is exactly what the agent is invoked with. -/
theorem C6_prompt_augmentation_witness :
    enhancedPrompt "Calculate my BMI"
        [("height", PyVal.int 175), ("weight", PyVal.int 70)] =
      "Calculate my BMI" ++ "\n\nUser metrics: " ++
        String.intercalate ", "
          ([("height", PyVal.int 175), ("weight", PyVal.int 70)].map
            fun kv => kv.1 ++ ": " ++ kv.2.render) ∧
    (handler (okBehavior (textResp "ok")) none
        (some { prompt := some "Calculate my BMI",
                userMetrics := some [("height", PyVal.int 175), ("weight", PyVal.int 70)] })
        none).trace.invokeCalls =
      [enhancedPrompt "Calculate my BMI"
        [("height", PyVal.int 175), ("weight", PyVal.int 70)]] :=
  ⟨(C6_prompt_augmentation "Calculate my BMI"
      [("height", PyVal.int 175), ("weight", PyVal.int 70)] (by decide)).1,
   (C6_prompt_augmentation "Calculate my BMI"
      [("height", PyVal.int 175), ("weight", PyVal.int 70)] (by decide)).2.2.2
      (okBehavior (textResp "ok")) none none (textResp "ok")
      (fun _ => rfl) (fun _ => rfl) (fun _ => rfl)⟩

/-- Claim C7: the memory-config constructor is invoked exactly when the
process-wide memory identifier is set and non-empty, and then exactly
once, scoped to the resolved actor/session ids, with the two per-actor
retrieval targets (health metrics and preferences), each top_k 3 at
relevance threshold 1/2. -/
theorem C7_memory_configuration (B : Behavior) (mid : Option String)
    (p : Option Payload) (c : Option Context) :
    ((handler B mid p c).trace.memCtorCalls = [] ↔ (mid = none ∨ mid = some "")) ∧
    (∀ s, mid = some s → s ≠ "" →
      (handler B mid p c).trace.memCtorCalls =
        [{ memory_id := s,
           session_id := resolveSessionId c,
           actor_id := resolveActorId c,
           retrieval_config :=
             [("/users/" ++ resolveActorId c ++ "/health_metrics",
               { top_k := 3, relevance_score := 1/2 }),
              ("/users/" ++ resolveActorId c ++ "/preferences",
               { top_k := 3, relevance_score := 1/2 })] }]) := by
  have htr : (handler B mid p c).trace.memCtorCalls =
      (memoryStep B mid (resolveSessionId c) (resolveActorId c)).2 := by
    rw [handler_trace, handlerTry_memCalls]
  rw [htr, memoryStep_calls]
  constructor
  · cases mid with
    | none => simp
    | some s => by_cases hs : s = "" <;> simp [hs]
  · intro s hmid hs
    subst hmid
    simp [hs, mkMemoryConfig]

/-- Claim C7, witness: with memory id "mem-123" the constructor is invoked
once with the two expected retrieval targets; with no memory id it is
never invoked. -/
theorem C7_memory_configuration_witness :
    (handler (okBehavior (textResp "ok2")) (some "mem-123") none
        (some { headers := some [(actorHeader, "test-user")] })).trace.memCtorCalls =
      [{ memory_id := "mem-123", session_id := "default", actor_id := "test-user",
         retrieval_config :=
           [("/users/test-user/health_metrics", { top_k := 3, relevance_score := 1/2 }),
            ("/users/test-user/preferences", { top_k := 3, relevance_score := 1/2 })] }] ∧
    (handler (okBehavior (textResp "ok2")) none none none).trace.memCtorCalls = [] := by
  constructor
  · rw [(C7_memory_configuration (okBehavior (textResp "ok2")) (some "mem-123") none
      (some { headers := some [(actorHeader, "test-user")] })).2 "mem-123" rfl
      (by decide)]
    rfl
  · exact (C7_memory_configuration (okBehavior (textResp "ok2")) none none none).1.mpr
      (Or.inl rfl)

/-- Claim C8: on a successful agent invocation the result has status
"success", response equal to the first text block of the agent response,
the resolved session and actor ids, and the context timestamp when the
context exposes one, else the null value. -/
theorem C8_success_result (B : Behavior) (mid : Option String)
    (p : Option Payload) (c : Option Context) (resp : AgentResponse) (t : String)
    (hm : ∀ a, B.memCtor a = Except.ok a)
    (ha : ∀ m, B.createAgent m = Except.ok ())
    (hi : ∀ s, B.invoke s = Except.ok resp)
    (ht : extractText resp = Except.ok t) :
    (handler B mid p c).result =
      { status := "success", response := some t,
        session_id := some (resolveSessionId c),
        actor_id := some (resolveActorId c),
        timestamp := contextTimestamp c } ∧
    (∀ ctx, c = some ctx → contextTimestamp c = ctx.timestamp) ∧
    (c = none → contextTimestamp c = none) := by
  refine ⟨?_, ?_, ?_⟩
  · exact handler_of_tryOk B mid p c t
      (by rw [(handlerTry_ok_pipeline B mid p c resp hm ha hi).1, ht])
  · intro ctx hc; subst hc; rfl
  · intro hc; subst hc; rfl

/-- Claim C8, witness: the end-to-end success scenario of the spec. -/
theorem C8_success_result_witness :
    (handler (okBehavior (textResp "Your BMI is 22.9, which is healthy."))
        none none
        (some { session_id := some "test-session",
                headers := some [(actorHeader, "test-user")],
                timestamp := some "2025-01-01T00:00:00Z" })).result =
      { status := "success", response := some "Your BMI is 22.9, which is healthy.",
        session_id := some "test-session", actor_id := some "test-user",
        timestamp := some "2025-01-01T00:00:00Z" } := by
  rw [(C8_success_result (okBehavior (textResp "Your BMI is 22.9, which is healthy."))
      none none
      (some { session_id := some "test-session",
              headers := some [(actorHeader, "test-user")],
              timestamp := some "2025-01-01T00:00:00Z" })
      (textResp "Your BMI is 22.9, which is healthy.")
      "Your BMI is 22.9, which is healthy."
      (fun _ => rfl) (fun _ => rfl) (fun _ => rfl) rfl).1]
  rfl

/-- Claim C9, counterexample: an agent response whose first text block is
the empty string yields a result with status "success" and an empty
`response`, refuting the claim that success implies a non-empty textual
response. -/
theorem C9_success_with_empty_response :
    (handler (okBehavior (textResp "")) none none none).result.status = "success" ∧
    (handler (okBehavior (textResp "")) none none none).result.response = some "" :=
  ⟨rfl, rfl⟩

/-- Claim C9, amended: status "success" implies the `response` key is
present (holding the extracted text, possibly empty) and `error` is
absent; status "error" implies `response` is absent and `error` holds the
exception message. -/
theorem C9_result_invariant (B : Behavior) (mid : Option String)
    (p : Option Payload) (c : Option Context) :
    ((handler B mid p c).result.status = "success" →
      (∃ t, (handler B mid p c).result.response = some t) ∧
      (handler B mid p c).result.error = none) ∧
    ((handler B mid p c).result.status = "error" →
      (handler B mid p c).result.response = none ∧
      ∃ e, (handler B mid p c).result.error = some e) := by
  rcases handler_cases B mid p c with ⟨t, tr, h, hr⟩ | ⟨e, tr, h, hr⟩
  · rw [hr]
    refine ⟨fun _ => ⟨⟨t, rfl⟩, rfl⟩, fun hc => ?_⟩
    simp at hc
  · rw [hr]
    refine ⟨fun hc => ?_, fun _ => ⟨rfl, ⟨e, rfl⟩⟩⟩
    simp [errorResult] at hc

/-- Claim C9, witness: a concrete success run has a present response and
absent error. -/
theorem C9_result_invariant_witness :
    (∃ t, (handler (okBehavior (textResp "hello")) none none none).result.response =
      some t) ∧
    (handler (okBehavior (textResp "hello")) none none none).result.error = none :=
  (C9_result_invariant (okBehavior (textResp "hello")) none none none).1 rfl

/-- Claim C10: the handler never mutates the inbound payload or context;
both are threaded through unchanged in the success case and the error
case alike. -/
theorem C10_inputs_unchanged (B : Behavior) (mid : Option String)
    (p : Option Payload) (c : Option Context) :
    (handler B mid p c).payloadOut = p ∧ (handler B mid p c).contextOut = c := by
  rcases handler_cases B mid p c with ⟨t, tr, h, hr⟩ | ⟨e, tr, h, hr⟩ <;>
    rw [hr] <;> exact ⟨rfl, rfl⟩

end CalcAgent
